import Mathlib

/-!
# Verification of the behavior-based AML detection engine

Shallow embedding of the AML engine core (Store.js, BaselineEngine.js,
PatternDetector.js, NetworkAnalyzer.js, EvidenceEngine.js, AlertGenerator.js,
AMLEngine.js) together with theorems settling the specification claims.

Modelling conventions, used uniformly below:
* JS numbers (transaction amounts, ratios, averages) are modelled as exact
  rationals `ℚ`; the source uses no floating-point equality, only strict
  inequalities with decimal constants, which have the same truth value over ℚ
  for the inputs of interest.
* Timestamps are absolute instants in epoch milliseconds, modelled as `Int`.
  `new Date(tx.timestamp)` comparisons become `Int` comparisons;
  `Math.floor(a / b)` on a quotient of instants becomes `Int.fdiv`;
  `getHours()` / `toDateString()` become hour / civil-day index in a fixed
  (UTC) zone, matching the engine run in one fixed zone.
* The clock (`Date.now()` / `new Date()`) is a parameter `now : Int`, fixed
  for a run, as the specification's determinism clause demands.
* `Math.random()` inside `Store.logAudit` is modelled as an explicit stream of
  draws `rands : List Nat` carried next to the store in `Sys`; each audit
  entry consumes one draw for the random half of its id.
* Human-readable description strings that are pure functions of data already
  carried in the records (deviation descriptions, pattern/network evidence
  blurbs, behavior summaries, timelines) are elided; all fields that any claim
  mentions (ids, scores, risk levels, severities, counts, timestamps, alert
  summaries, recommendations) are embedded.
-/

attribute [local semireducible] Rat.add Rat.mul Rat.sub Rat.inv

namespace AML

/-- Alert/deviation/pattern severity levels used across the engine. -/
inductive Severity where
  | low | medium | high | critical
deriving DecidableEq, Repr

/-- Risk bands, the engine's strings 'Normal', 'Suspicious', 'High Risk',
'Probable Money Laundering'. -/
inductive RiskLevel where
  | normal | suspicious | highRisk | probableML
deriving DecidableEq, Repr

/-- A transaction as consumed by the engine (optional pass-through fields
such as bank_account / currency are not consumed by the core and elided). -/
structure Tx where
  id : String
  sender : String
  receiver : String
  amount : ℚ
  timestamp : Int
deriving DecidableEq, Repr

/-- The per-account evidence record persisted by
`EvidenceEngine.updateAccountEvidence`. -/
structure AccountEvidence where
  score : Nat
  riskLevel : RiskLevel
  suspiciousTransactions : Nat
  confirmedPatterns : Nat
  networkSignals : Nat
  isProbableML : Bool
  lastUpdated : Int
deriving DecidableEq, Repr

/-- An alert as built by `AlertGenerator.generateAlert`. `id` is the epoch-ms
half of the JS `'ALERT-' + Date.now()` string. The narrative fields
(behaviorSummary, detectedPatterns, timeline, networkRelationships) are pure
functions of the evaluation and are elided; the evidence breakdown counts are
kept. -/
structure Alert where
  id : Int
  accountId : String
  severity : Severity
  riskLevel : RiskLevel
  score : Nat
  timestamp : Int
  status : String
  summary : String
  suspiciousTransactions : Nat
  confirmedPatterns : Nat
  networkSignals : Nat
  recommendations : List String
deriving DecidableEq, Repr

/-- An audit log record written by `Store.logAudit`. The JS id
`Date.now().toString(36) + Math.random().toString(36).substr(2)` is modelled
by its two halves: the clock reading `idTime` and the random draw `idRand`. -/
structure AuditLog where
  idTime : Int
  idRand : Nat
  timestamp : Int
  user : String
  action : String
  details : String
deriving DecidableEq, Repr

/-- The Store's persisted document, restricted to the collections the engine
core reads or writes. `accountEvidence` is the JS object keyed by account id,
modelled as an association list with JS-object update semantics (update in
place, insert at the end). -/
structure St where
  transactions : List Tx
  alerts : List Alert
  auditLogs : List AuditLog
  accountEvidence : List (String × AccountEvidence)
deriving DecidableEq, Repr

/-- Store plus the stream of pending `Math.random()` draws. The draws are an
external source of nondeterminism, deliberately kept outside `St`. -/
structure Sys where
  store : St
  rands : List Nat
deriving DecidableEq, Repr

/-- Does the transaction touch the account (as sender or receiver)?
Used by every `transactions.filter(tx => tx.sender === a || tx.receiver === a)`. -/
def touches (accountId : String) (tx : Tx) : Bool :=
  tx.sender == accountId || tx.receiver == accountId

def msPerDay : Int := 86400000

def msPerHour : Int := 3600000

/-- JS `new Set(l).size`: number of distinct elements. -/
def distinctCount (l : List String) : Nat := l.eraseDups.length

/-- `new Date(ts).getHours()` in the engine's (fixed, UTC) zone. -/
def jsHour (ts : Int) : Int := (ts.fdiv msPerHour) % 24

/-- `new Date(ts).toDateString()` collapsed to a civil-day index in the
engine's fixed zone. -/
def dayIndex (ts : Int) : Int := ts.fdiv msPerDay

/-- JS `num / den < bound` where the division is IEEE: for `den = 0` and
`num ≥ 0` the JS quotient is `NaN` or `+Infinity`, so the comparison is
false; every use site has `num ≥ 0` (an absolute value). Otherwise exact
division agrees with the JS comparison. -/
def divLtJs (num den bound : ℚ) : Bool :=
  den != 0 && decide (num / den < bound)

/-- `BaselineEngine` result record. `accountAge` is `Int`: the JS
`Math.floor((Date.now() - firstTs) / 86400000) || 1` is negative for a first
transaction dated in the future, and the `|| 1` floor only catches `0`. -/
structure Baseline where
  accountId : String
  avgDailyInflow : ℚ
  avgDailyOutflow : ℚ
  avgTxFrequency : ℚ
  avgUniqueSenders : ℚ
  avgUniqueReceivers : ℚ
  typicalAmountRange : ℚ × ℚ
  accountAge : Int
  totalTransactions : Nat
  lastUpdated : Int
deriving DecidableEq, Repr

/-- `BaselineEngine.getDefaultBaseline`. -/
def getDefaultBaseline (now : Int) (accountId : String) : Baseline where
  accountId := accountId
  avgDailyInflow := 0
  avgDailyOutflow := 0
  avgTxFrequency := 0
  avgUniqueSenders := 0
  avgUniqueReceivers := 0
  typicalAmountRange := (0, 0)
  accountAge := 0
  totalTransactions := 0
  lastUpdated := now

/-- `BaselineEngine.calculateBaseline`. -/
def calculateBaseline (now : Int) (accountId : String) (allTransactions : List Tx) :
    Baseline :=
  let accountTxs := allTransactions.filter (touches accountId)
  match accountTxs with
  | [] => getDefaultBaseline now accountId
  | headTx :: restTxs =>
    -- `reduce((earliest, tx) => new Date(tx.timestamp) < new Date(earliest.timestamp) ? tx : earliest)`
    let firstTx := restTxs.foldl
      (fun earliest tx => if tx.timestamp < earliest.timestamp then tx else earliest) headTx
    -- `Math.floor((Date.now() - firstTs) / 86400000) || 1`
    let accountAgeRaw := (now - firstTx.timestamp).fdiv msPerDay
    let accountAge := if accountAgeRaw = 0 then 1 else accountAgeRaw
    let inflows := accountTxs.filter (fun tx => tx.receiver == accountId)
    let outflows := accountTxs.filter (fun tx => tx.sender == accountId)
    let totalInflow : ℚ := (inflows.map (·.amount)).sum
    let totalOutflow : ℚ := (outflows.map (·.amount)).sum
    let ageQ : ℚ := (accountAge : ℚ)
    let amounts := List.insertionSort (· ≤ ·) (accountTxs.map (·.amount))
    let n := amounts.length
    { accountId := accountId
      avgDailyInflow := totalInflow / ageQ
      avgDailyOutflow := totalOutflow / ageQ
      avgTxFrequency := (accountTxs.length : ℚ) / ageQ
      avgUniqueSenders := (distinctCount (inflows.map (·.sender)) : ℚ) / ageQ
      avgUniqueReceivers := (distinctCount (outflows.map (·.receiver)) : ℚ) / ageQ
      typicalAmountRange := (amounts.getD (n / 10) 0, amounts.getD (9 * n / 10) 0)
      accountAge := accountAge
      totalTransactions := accountTxs.length
      lastUpdated := now }

/-- Kinds of baseline deviations reported by `BaselineEngine.checkDeviation`. -/
inductive DevType where
  | amount_deviation | first_transaction | range_deviation
deriving DecidableEq, Repr

/-- One deviation entry (the ratio/description strings are elided). -/
structure Deviation where
  dtype : DevType
  severity : Severity
deriving DecidableEq, Repr

/-- Result of `BaselineEngine.checkDeviation` (the echoed baseline is elided). -/
structure DeviationResult where
  hasDeviation : Bool
  deviations : List Deviation
deriving DecidableEq, Repr

/-- `BaselineEngine.checkDeviation`. Note the source guards the
amount/first-transaction branch with `if (transaction.sender)` — JS string
truthiness, i.e. sender non-empty — not with a comparison against the
baseline's account. -/
def checkDeviation (transaction : Tx) (baseline : Baseline) : DeviationResult :=
  let amountDevs : List Deviation :=
    if transaction.sender ≠ "" then
      if 0 < baseline.avgDailyOutflow then
        let amountQuot := transaction.amount / baseline.avgDailyOutflow
        if 3 < amountQuot then
          [⟨.amount_deviation, if 5 < amountQuot then .high else .medium⟩]
        else []
      else if 0 < transaction.amount then [⟨.first_transaction, .medium⟩]
      else []
    else []
  let devs := amountDevs ++
    (if 0 < baseline.typicalAmountRange.2 ∧
        baseline.typicalAmountRange.2 * (3 / 2) < transaction.amount then
      [⟨.range_deviation, .medium⟩]
    else [])
  { hasDeviation := !devs.isEmpty, deviations := devs }

/-- `BaselineEngine.getRecentActivity` (cutoff comparison is strict `>`). -/
def getRecentActivity (now : Int) (accountId : String) (transactions : List Tx)
    (hoursBack : Int) : List Tx :=
  let cutoff := now - hoursBack * msPerHour
  transactions.filter (fun tx => touches accountId tx && decide (cutoff < tx.timestamp))

/-- Kinds of suspicious-transaction entries found by
`EvidenceEngine.findSuspiciousTransactions`. -/
inductive SuspType where
  | baseline_deviation | frequency_spike | sender_count_spike
  | similar_value_repeat | unusual_timing
deriving DecidableEq, Repr

/-- One suspicious-transaction entry; `deviations` is non-empty only for
`baseline_deviation` entries (description strings elided). -/
structure SuspEntry where
  txId : String
  stype : SuspType
  deviations : List Deviation
  transaction : Tx
deriving DecidableEq, Repr

/-- `EvidenceEngine.checkUnusualTiming`, reduced to its detected/not-detected
outcome. -/
def checkUnusualTiming (transaction : Tx) (accountHistory : List Tx) : Bool :=
  let hour := jsHour transaction.timestamp
  if 0 ≤ hour ∧ hour < 5 then
    let normalHourTxs := accountHistory.filter
      (fun tx => decide (5 ≤ jsHour tx.timestamp) && decide (jsHour tx.timestamp < 24))
    decide ((accountHistory.length : ℚ) * (4 / 5) < (normalHourTxs.length : ℚ))
  else false

/-- The entries `EvidenceEngine.findSuspiciousTransactions` pushes for one
transaction of the account, in source order. -/
def suspEntriesFor (accountId : String) (baseline : Baseline) (accountTxs : List Tx)
    (txCountToday uniqueSendersToday : Nat) (tx : Tx) : List SuspEntry :=
  (if tx.sender = accountId ∧ (checkDeviation tx baseline).hasDeviation = true then
    [⟨tx.id, .baseline_deviation, (checkDeviation tx baseline).deviations, tx⟩]
  else []) ++
  (if 0 < baseline.avgTxFrequency ∧ baseline.avgTxFrequency * 3 < (txCountToday : ℚ) then
    [⟨tx.id, .frequency_spike, [], tx⟩]
  else []) ++
  (if tx.receiver = accountId ∧ 0 < baseline.avgUniqueSenders ∧
      baseline.avgUniqueSenders * 2 < (uniqueSendersToday : ℚ) then
    [⟨tx.id, .sender_count_spike, [], tx⟩]
  else []) ++
  -- `windowStart = tx.ts − 24h`; the filter has no upper bound on `o.ts`.
  (if 3 ≤ (accountTxs.filter (fun o =>
        decide (tx.timestamp - msPerDay ≤ o.timestamp) &&
        divLtJs |o.amount - tx.amount| tx.amount (1 / 20))).length then
    [⟨tx.id, .similar_value_repeat, [], tx⟩]
  else []) ++
  (if checkUnusualTiming tx accountTxs = true then
    [⟨tx.id, .unusual_timing, [], tx⟩]
  else [])

/-- `EvidenceEngine.findSuspiciousTransactions`. -/
def findSuspiciousTransactions (now : Int) (accountId : String)
    (transactions : List Tx) (baseline : Baseline) : List SuspEntry :=
  let accountTxs := transactions.filter (touches accountId)
  let startOfDay := (now.fdiv msPerDay) * msPerDay
  let todaysTxs := accountTxs.filter (fun tx => decide (startOfDay ≤ tx.timestamp))
  let txCountToday := todaysTxs.length
  let uniqueSendersToday :=
    distinctCount ((todaysTxs.filter (fun tx => tx.receiver == accountId)).map (·.sender))
  accountTxs.flatMap (suspEntriesFor accountId baseline accountTxs txCountToday uniqueSendersToday)

/-- Kinds of behavioral patterns detected by `PatternDetector`. -/
inductive PatType where
  | smurfing | layering | structuring | income_mismatch
deriving DecidableEq, Repr

/-- One detected pattern (evidence payloads and description strings elided;
detection conditions are embedded in full). -/
structure Pattern where
  ptype : PatType
  severity : Severity
deriving DecidableEq, Repr

/-- `PatternDetector.detectSmurfing` (clustering is computed in the source
only as evidence payload and does not affect detection). -/
def detectSmurfing (accountId : String) (recentTxs : List Tx) : Option Pattern :=
  let inflows := recentTxs.filter (fun tx => tx.receiver == accountId)
  if 6 ≤ distinctCount (inflows.map (·.sender)) then some ⟨.smurfing, .high⟩ else none

/-- `PatternDetector.detectLayering`. For each inflow (in ascending time
order) the source looks for the first outflow strictly later, strictly within
2 hours, with relative amount difference strictly below 10%. -/
def detectLayering (accountId : String) (transactions : List Tx) : Option Pattern :=
  let inflows := List.insertionSort (fun a b => a.timestamp ≤ b.timestamp)
    (transactions.filter (fun tx => tx.receiver == accountId))
  let rapidCycles := inflows.filter (fun inflow =>
    (transactions.find? (fun tx =>
      tx.sender == accountId &&
      decide (inflow.timestamp < tx.timestamp) &&
      decide (tx.timestamp < inflow.timestamp + 2 * msPerHour) &&
      divLtJs |tx.amount - inflow.amount| inflow.amount (1 / 10))).isSome)
  if 3 ≤ rapidCycles.length then some ⟨.layering, .high⟩ else none

/-- `PatternDetector.detectStructuring`. -/
def detectStructuring (accountId : String) (transactions : List Tx)
    (baseline : Baseline) : Option Pattern :=
  let defaultThreshold : ℚ := 10000
  let upperTypical := baseline.typicalAmountRange.2
  let threshold := max (upperTypical * (11 / 10)) defaultThreshold
  let lowerBound := threshold * (85 / 100)
  let upperBound := threshold * (99 / 100)
  let structuredTxs := transactions.filter (fun tx =>
    tx.sender == accountId &&
    decide (lowerBound ≤ tx.amount) && decide (tx.amount ≤ upperBound))
  if 3 ≤ structuredTxs.length ∧
      2 ≤ ((structuredTxs.map (fun tx => dayIndex tx.timestamp)).eraseDups).length then
    some ⟨.structuring, .high⟩
  else none

/-- `PatternDetector.detectIncomeMismatch`. -/
def detectIncomeMismatch (now : Int) (accountId : String) (transactions : List Tx) :
    Option Pattern :=
  let baseline := calculateBaseline now accountId transactions
  if baseline.accountAge < 7 then none
  else
    let recentTxs := getRecentActivity now accountId transactions (24 * 7)
    let recentInflows := recentTxs.filter (fun tx => tx.receiver == accountId)
    let recentDailyAvg := ((recentInflows.map (·.amount)).sum) / 7
    if 0 < baseline.avgDailyInflow then
      let r := recentDailyAvg / baseline.avgDailyInflow
      if 3 < r then some ⟨.income_mismatch, if 5 < r then .high else .medium⟩ else none
    else none

/-- `PatternDetector.detectPatterns`: the four matchers in source order. -/
def detectPatterns (now : Int) (accountId : String) (transactions : List Tx) :
    List Pattern :=
  let baseline := calculateBaseline now accountId transactions
  let recentTxs := getRecentActivity now accountId transactions 48
  (detectSmurfing accountId recentTxs).toList ++
  (detectLayering accountId transactions).toList ++
  (detectStructuring accountId transactions baseline).toList ++
  (detectIncomeMismatch now accountId transactions).toList

/-- Network signals emitted by `NetworkAnalyzer` (evidence payloads carried
where numeric/structured, description strings elided). -/
inductive NetSignal where
  | circular (severity : Severity) (pathLength : Nat)
  | hub (severity : Severity) (uniqueSenders uniqueReceivers rapidRedistributions : Nat)
  | flaggedLinks (severity : Severity) (linkedAccounts : List String)
deriving DecidableEq, Repr

/-- `NetworkAnalyzer.traceFundPaths`. The JS recursion is bounded by
`currentPath.length >= maxDepth` plus the per-path edge-visited set; `fuel`
is a structural-recursion bound kept equal to `maxDepth - currentPath.length`
at every reachable call (the top-level call passes `fuel = maxDepth`,
`currentPath = []`), so the `fuel = 0` fallback is never reached and the
function agrees with the source on all such calls. -/
def traceFundPaths (transactions : List Tx) (startAccount : String) (maxDepth : Nat)
    (currentPath : List Tx) (visited : List String) (fuel : Nat) : List (List Tx) :=
  if maxDepth ≤ currentPath.length then [currentPath]
  else
    let lastAccount := match currentPath.getLast? with
      | some tx => tx.receiver
      | none => startAccount
    let outflows := transactions.filter (fun tx =>
      tx.sender == lastAccount && !(visited.contains tx.id))
    if outflows.isEmpty then
      if 0 < currentPath.length then [currentPath] else []
    else
      match fuel with
      | 0 => []
      | fuel' + 1 =>
        outflows.foldl (fun acc tx =>
          acc ++ traceFundPaths transactions startAccount maxDepth
            (currentPath ++ [tx]) (tx.id :: visited) fuel') []

/-- `NetworkAnalyzer.detectCircularFlow`: bounded DFS (max depth 5), keep
paths returning to the origin with length ≥ 3, emit the longest. -/
def detectCircularFlow (accountId : String) (transactions : List Tx) :
    Option NetSignal :=
  let paths := traceFundPaths transactions accountId 5 [] [] 5
  let circularPaths := paths.filter (fun p =>
    match p.getLast? with
    | some tx => tx.receiver == accountId && decide (3 ≤ p.length)
    | none => false)
  match circularPaths with
  | [] => none
  | p :: rest =>
    let mainPath := rest.foldl
      (fun longest current => if longest.length < current.length then current else longest) p
    some (.circular .critical mainPath.length)

/-- `NetworkAnalyzer.detectHubBehavior`. -/
def detectHubBehavior (accountId : String) (transactions : List Tx) :
    Option NetSignal :=
  let inflows := transactions.filter (fun tx => tx.receiver == accountId)
  let outflows := transactions.filter (fun tx => tx.sender == accountId)
  let uniqueSenders := distinctCount (inflows.map (·.sender))
  let uniqueReceivers := distinctCount (outflows.map (·.receiver))
  if 5 ≤ uniqueSenders ∧ 5 ≤ uniqueReceivers then
    let rapidRedistributions := (inflows.filter (fun inflow =>
      (outflows.find? (fun outflow =>
        decide (0 < outflow.timestamp - inflow.timestamp) &&
        decide (outflow.timestamp - inflow.timestamp < 24 * msPerHour))).isSome)).length
    if 3 ≤ rapidRedistributions then
      some (.hub .critical uniqueSenders uniqueReceivers rapidRedistributions)
    else none
  else none

/-- `NetworkAnalyzer.detectFlaggedLinks`. -/
def detectFlaggedLinks (accountId : String) (transactions : List Tx)
    (accountEvidence : List (String × AccountEvidence)) : Option NetSignal :=
  let flaggedAccounts := (accountEvidence.filter (fun p =>
    p.2.riskLevel == .highRisk || p.2.riskLevel == .probableML)).map (·.1)
  if flaggedAccounts.isEmpty then none
  else
    let connections := transactions.filter (fun tx =>
      (tx.sender == accountId && flaggedAccounts.contains tx.receiver) ||
      (tx.receiver == accountId && flaggedAccounts.contains tx.sender))
    if connections.isEmpty then none
    else
      let linkedAccounts := (connections.map (fun tx =>
        if tx.sender == accountId then tx.receiver else tx.sender)).eraseDups
      some (.flaggedLinks .high linkedAccounts)

/-- Result of `NetworkAnalyzer.analyzeAccount`. -/
structure NetworkResult where
  accountId : String
  networkSignals : Nat
  isProbableML : Bool
  signals : List NetSignal
deriving DecidableEq, Repr

/-- `NetworkAnalyzer.analyzeAccount`: the three detectors in source order;
`isProbableML` iff at least two signals fire. -/
def analyzeAccount (accountId : String) (transactions : List Tx)
    (accountEvidence : List (String × AccountEvidence)) : NetworkResult :=
  let signals := (detectCircularFlow accountId transactions).toList ++
    (detectHubBehavior accountId transactions).toList ++
    (detectFlaggedLinks accountId transactions accountEvidence).toList
  { accountId := accountId
    networkSignals := signals.length
    isProbableML := decide (2 ≤ signals.length)
    signals := signals }

/-- Evidence counts carried in an evaluation (`evaluation.evidence`). -/
structure EvidenceCounts where
  suspiciousTransactions : Nat
  confirmedPatterns : Nat
  networkSignals : Nat
  isProbableML : Bool
deriving DecidableEq, Repr

/-- Detailed findings carried in an evaluation (`evaluation.details`). -/
structure EvalDetails where
  suspiciousTxs : List SuspEntry
  patterns : List Pattern
  networkSignals : List NetSignal
deriving DecidableEq, Repr

/-- Result of `EvidenceEngine.evaluateAccount`. -/
structure Evaluation where
  accountId : String
  score : Nat
  riskLevel : RiskLevel
  evidence : EvidenceCounts
  details : EvalDetails
  baseline : Baseline
  timestamp : Int
deriving DecidableEq, Repr

/-- `EvidenceEngine.calculateScore`: weighted sum (10/20/30, +20 probable-ML
bonus), capped at 100 by `Math.min`. -/
def calculateScore (suspiciousTxs : List SuspEntry) (patterns : List Pattern)
    (networkAnalysis : NetworkResult) : Nat :=
  min (suspiciousTxs.length * 10 + patterns.length * 20 +
    networkAnalysis.networkSignals * 30 +
    (if networkAnalysis.isProbableML then 20 else 0)) 100

/-- `EvidenceEngine.getRiskLevel`. -/
def getRiskLevel (score : Nat) : RiskLevel :=
  if 80 ≤ score then .probableML
  else if 60 ≤ score then .highRisk
  else if 30 ≤ score then .suspicious
  else .normal

/-- `EvidenceEngine.evaluateAccount`. Reads the Store's transactions and (via
`NetworkAnalyzer.detectFlaggedLinks`) its persisted account evidence; both are
passed explicitly. -/
def evaluateAccount (now : Int) (transactions : List Tx)
    (accountEvidence : List (String × AccountEvidence)) (accountId : String) :
    Evaluation :=
  let baseline := calculateBaseline now accountId transactions
  let suspiciousTxs := findSuspiciousTransactions now accountId transactions baseline
  let patterns := detectPatterns now accountId transactions
  let networkAnalysis := analyzeAccount accountId transactions accountEvidence
  let score := calculateScore suspiciousTxs patterns networkAnalysis
  { accountId := accountId
    score := score
    riskLevel := getRiskLevel score
    evidence := ⟨suspiciousTxs.length, patterns.length,
      networkAnalysis.networkSignals, networkAnalysis.isProbableML⟩
    details := ⟨suspiciousTxs, patterns, networkAnalysis.signals⟩
    baseline := baseline
    timestamp := now }

/-- JS-object write `data.accountEvidence[key] = value`: update in place if
the key exists, otherwise append. -/
def setEvidence (key : String) (value : AccountEvidence) :
    List (String × AccountEvidence) → List (String × AccountEvidence)
  | [] => [(key, value)]
  | (k, v) :: rest =>
    if k == key then (key, value) :: rest else (k, v) :: setEvidence key value rest

/-- The evidence record `EvidenceEngine.updateAccountEvidence` persists for an
evaluation. -/
def evidenceRecord (ev : Evaluation) : AccountEvidence where
  score := ev.score
  riskLevel := ev.riskLevel
  suspiciousTransactions := ev.evidence.suspiciousTransactions
  confirmedPatterns := ev.evidence.confirmedPatterns
  networkSignals := ev.evidence.networkSignals
  isProbableML := ev.evidence.isProbableML
  lastUpdated := ev.timestamp

/-- `EvidenceEngine.updateAccountEvidence` as a Store/`Sys` update (writes no
audit entry and consumes no randomness). -/
def updateAccountEvidence (ev : Evaluation) (sys : Sys) : Sys :=
  { sys with store := { sys.store with
      accountEvidence := setEvidence ev.accountId (evidenceRecord ev) sys.store.accountEvidence } }

/-- `Store.logAudit`: prepend an audit record whose id couples the clock with
one `Math.random()` draw. -/
def logAudit (now : Int) (user actionName details : String) (sys : Sys) : Sys :=
  { store := { sys.store with
      auditLogs := ⟨now, sys.rands.headD 0, now, user, actionName, details⟩ ::
        sys.store.auditLogs }
    rands := sys.rands.tail }

/-- `Store.addTransaction`: prepend, then audit. -/
def addTransaction (now : Int) (transaction : Tx) (sys : Sys) : Sys :=
  let sys1 : Sys := { sys with store := { sys.store with
      transactions := transaction :: sys.store.transactions } }
  logAudit now "System" "Transaction Added"
    ("ID: " ++ transaction.id ++ ", Amount: " ++ toString transaction.amount) sys1

/-- `AlertGenerator.mapRiskToSeverity`. -/
def mapRiskToSeverity : RiskLevel → Severity
  | .normal => .low
  | .suspicious => .medium
  | .highRisk => .high
  | .probableML => .critical

/-- Pattern type tags as printed into alert summaries. -/
def patTypeName : PatType → String
  | .smurfing => "smurfing"
  | .layering => "layering"
  | .structuring => "structuring"
  | .income_mismatch => "income_mismatch"

/-- `AlertGenerator.generateSummary`. -/
def generateSummary (ev : Evaluation) : String :=
  let parts : List String :=
    (if 0 < ev.evidence.suspiciousTransactions then
      [toString ev.evidence.suspiciousTransactions ++ " suspicious transactions"]
    else []) ++
    (if 0 < ev.evidence.confirmedPatterns then
      ["patterns detected: " ++
        String.intercalate ", " (ev.details.patterns.map (fun p => patTypeName p.ptype))]
    else []) ++
    (if 0 < ev.evidence.networkSignals then
      [toString ev.evidence.networkSignals ++ " network signals"]
    else [])
  "Account \"" ++ ev.accountId ++ "\": " ++ String.intercalate ", " parts

/-- `AlertGenerator.generateRecommendations`. -/
def generateRecommendations (ev : Evaluation) : List String :=
  match ev.riskLevel with
  | .probableML =>
    ["IMMEDIATE ACTION REQUIRED: File Suspicious Activity Report (SAR)",
     "Escalate to compliance team for investigation",
     "Consider account freeze pending investigation"]
  | .highRisk =>
    ["Enhanced due diligence required",
     "Review account activity with compliance team",
     "Monitor closely for additional suspicious activity"]
  | .suspicious =>
    ["Continue monitoring account activity",
     "Document suspicious patterns",
     "Escalate if additional evidence emerges"]
  | .normal => []

/-- The alert object `AlertGenerator.generateAlert` builds once the score
threshold is met. -/
def mkAlert (now : Int) (ev : Evaluation) : Alert where
  id := now
  accountId := ev.accountId
  severity := mapRiskToSeverity ev.riskLevel
  riskLevel := ev.riskLevel
  score := ev.score
  timestamp := now
  status := "open"
  summary := generateSummary ev
  suspiciousTransactions := ev.evidence.suspiciousTransactions
  confirmedPatterns := ev.evidence.confirmedPatterns
  networkSignals := ev.evidence.networkSignals
  recommendations := generateRecommendations ev

/-- `AlertGenerator.generateAlert`: null exactly below the threshold. -/
def generateAlert (now : Int) (ev : Evaluation) : Option Alert :=
  if ev.score < 30 then none else some (mkAlert now ev)

/-- Uppercased severity as printed into the alert audit entry. -/
def sevUpper : Severity → String
  | .low => "LOW"
  | .medium => "MEDIUM"
  | .high => "HIGH"
  | .critical => "CRITICAL"

/-- The duplicate-window test `AlertGenerator.createAndSaveAlert` runs against
each stored alert: same account and `new Date(a.timestamp) > now − 1h`. -/
def isRecentAlertFor (now : Int) (accountId : String) (al : Alert) : Bool :=
  al.accountId == accountId && decide (now - msPerHour < al.timestamp)

/-- `AlertGenerator.createAndSaveAlert`: evaluate, generate; if generated and
no alert for this account is newer than one hour, append (`alerts.push`) and
audit; the generated alert is returned in every generated branch, persisted
or suppressed. -/
def createAndSaveAlert (now : Int) (accountId : String) (sys : Sys) :
    Option Alert × Sys :=
  let ev := evaluateAccount now sys.store.transactions sys.store.accountEvidence accountId
  match generateAlert now ev with
  | none => (none, sys)
  | some alert =>
    let existingAlert := sys.store.alerts.find? (isRecentAlertFor now accountId)
    if existingAlert.isSome then (some alert, sys)
    else
      let sys1 : Sys := { sys with store := { sys.store with
          alerts := sys.store.alerts ++ [alert] } }
      (some alert,
        logAudit now "System" "Alert Generated"
          (sevUpper alert.severity ++ " alert for account " ++ accountId ++ ": " ++
            alert.summary) sys1)

/-- The per-account body of `AMLEngine.processTransaction`: evaluate, persist
evidence, and above the threshold create-and-save an alert (which re-evaluates
against the just-updated store, as in the source). -/
def processAccountStep (now : Int) (accountId : String) (sys : Sys) : Sys :=
  let ev := evaluateAccount now sys.store.transactions sys.store.accountEvidence accountId
  let sys1 := updateAccountEvidence ev sys
  if 30 ≤ ev.score then (createAndSaveAlert now accountId sys1).2 else sys1

/-- `AMLEngine.processTransaction` (the returned summary object is a pure
function of the evaluations and is elided; all Store effects are embedded). -/
def processTransaction (now : Int) (transaction : Tx) (sys : Sys) : Sys :=
  let sys1 := addTransaction now transaction sys
  [transaction.sender, transaction.receiver].foldl
    (fun acc accountId => processAccountStep now accountId acc) sys1

/-- `EvidenceEngine.evaluateAllAccounts`: account set in first-occurrence
order, each evaluated against the store as updated so far. -/
def evaluateAllAccounts (now : Int) (sys : Sys) : List Evaluation × Sys :=
  let accounts := (sys.store.transactions.flatMap
    (fun tx => [tx.sender, tx.receiver])).eraseDups
  accounts.foldl (fun acc accountId =>
    let ev := evaluateAccount now acc.2.store.transactions
      acc.2.store.accountEvidence accountId
    (acc.1 ++ [ev], updateAccountEvidence ev acc.2)) ([], sys)

/-- `AMLEngine.runFullAnalysis` (the returned statistics are elided). -/
def runFullAnalysis (now : Int) (sys : Sys) : Sys :=
  let res := evaluateAllAccounts now sys
  res.1.foldl (fun acc ev =>
    if 30 ≤ ev.score then (createAndSaveAlert now ev.accountId acc).2 else acc) res.2

/-- `Store.init` seeding: empty collections plus the initialization audit
entry (users and watchlist are outside the engine core). -/
def initStore (now : Int) (rands : List Nat) : Sys :=
  logAudit now "System" "Initialization" "System initialized with default data."
    ⟨⟨[], [], [], []⟩, rands⟩

/-- Processing a whole ingest sequence through the pipeline, front to back. -/
def processAll (now : Int) (txs : List Tx) (sys : Sys) : Sys :=
  txs.foldl (fun acc tx => processTransaction now tx acc) sys

/-- Store states reachable from the seeded store through the core entry
points (`processTransaction`, `createAndSaveAlert`, `runFullAnalysis`) under
a fixed clock, with arbitrary randomness at each step. -/
inductive Reach (now : Int) : St → Prop where
  | init (rands : List Nat) : Reach now (initStore now rands).store
  | proc (s : St) (t : Tx) (rands : List Nat) :
      Reach now s → Reach now (processTransaction now t ⟨s, rands⟩).store
  | save (s : St) (a : String) (rands : List Nat) :
      Reach now s → Reach now (createAndSaveAlert now a ⟨s, rands⟩).2.store
  | full (s : St) (rands : List Nat) :
      Reach now s → Reach now (runFullAnalysis now ⟨s, rands⟩).store

/-! ## Derived notions and concrete inputs used by the theorems -/

/-- The risk bands exactly as the specification states them. -/
def InBand (score : Nat) (lvl : RiskLevel) : Prop :=
  (lvl = .normal ↔ score < 30) ∧
  (lvl = .suspicious ↔ 30 ≤ score ∧ score < 60) ∧
  (lvl = .highRisk ↔ 60 ≤ score ∧ score < 80) ∧
  (lvl = .probableML ↔ 80 ≤ score ∧ score ≤ 100)

/-- Audit record with the random half of its id scrubbed. -/
def eraseLogId (l : AuditLog) : AuditLog := { l with idRand := 0 }

/-- Store state with the random halves of all audit ids scrubbed. -/
def eraseAuditIds (s : St) : St :=
  { s with auditLogs := s.auditLogs.map eraseLogId }

/-- Equality of store states up to the random halves of audit ids. -/
def StEquiv (s₁ s₂ : St) : Prop :=
  s₁.transactions = s₂.transactions ∧ s₁.alerts = s₂.alerts ∧
  s₁.accountEvidence = s₂.accountEvidence ∧
  s₁.auditLogs.map eraseLogId = s₂.auditLogs.map eraseLogId

/-- The per-account one-hour alert count bound (the C5 invariant), as a
property of the alerts list alone. -/
def InvAlerts (now : Int) (alerts : List Alert) : Prop :=
  ∀ a : String, (alerts.filter (isRecentAlertFor now a)).length ≤ 1

/-- Stated from the claim wording for C9 (reference definition, to be
compared with the source's `findSuspiciousTransactions` window): number of
transactions touching the account within the 24 hours before `tx.timestamp`
— counting `tx` itself and no transaction after `tx.timestamp` — whose
amount lies within 5% of `tx.amount`. -/
def specSimilarWindowCount (accountId : String) (txs : List Tx) (tx : Tx) : Nat :=
  ((txs.filter (touches accountId)).filter (fun o =>
    decide (tx.timestamp - msPerDay ≤ o.timestamp) &&
    decide (o.timestamp ≤ tx.timestamp) &&
    divLtJs |o.amount - tx.amount| tx.amount (1 / 20))).length

/-- Fixed clock used by the concrete scenarios. -/
def nowRef : Int := 1700000000000

/-- An empty store document (all collections empty). -/
def emptyStore : St := ⟨[], [], [], []⟩

/-- An ordinary valid transaction, ten days old. -/
def plainTx : Tx := ⟨"T1", "A", "B", 100, nowRef - 10 * 86400000⟩

/-- An invalid transaction: non-positive amount and sender = receiver. -/
def invalidTx : Tx := ⟨"TX-BAD", "A", "A", -5, nowRef - 3 * 86400000⟩

/-- Three transactions forming the circle A→B→C→A inside a few hours,
giving account A a circular-flow network signal (+30 score). -/
def circTxs : List Tx :=
  [⟨"C1", "A", "B", 1000, nowRef - 3 * 3600000⟩,
   ⟨"C2", "B", "C", 1000, nowRef - 2 * 3600000⟩,
   ⟨"C3", "C", "A", 1000, nowRef - 1 * 3600000⟩]

/-- Store holding the circular-flow scenario. -/
def circSt : St := ⟨circTxs, [], [], []⟩

/-- A pre-existing alert for account A stamped at the fixed clock (inside
the one-hour dedup window). -/
def preExistingAlert : Alert :=
  ⟨nowRef, "A", .medium, .suspicious, 30, nowRef, "open", "w", 0, 0, 1, []⟩

/-- The circular-flow store with a pre-existing in-window alert for A. -/
def dupSt : St := ⟨circTxs, [preExistingAlert], [], []⟩

/-- A concrete evaluation above the alert threshold, for the C4 witness. -/
def evAt45 : Evaluation :=
  ⟨"ACC-1", 45, .suspicious, ⟨1, 1, 0, false⟩, ⟨[], [], []⟩,
    getDefaultBaseline 0 "ACC-1", 0⟩

/-- History giving account A a positive average daily outflow (for C8). -/
def c8HistoryTxs : List Tx := [⟨"T1", "A", "C", 100, nowRef - 10 * 86400000⟩]

/-- Baseline of account A over that history. -/
def c8Baseline : Baseline := calculateBaseline nowRef "A" c8HistoryTxs

/-- A transaction whose sender is the different, non-empty account B. -/
def c8ForeignTx : Tx := ⟨"T2", "B", "A", 100, nowRef⟩

/-- Transactions for C9: `T0` at time 0, and two later equal-amount
transactions one hour after it. -/
def c9Txs : List Tx :=
  [⟨"T0", "A", "X", 100, 0⟩, ⟨"T1", "Y", "A", 100, 3600000⟩,
   ⟨"T2", "Z", "A", 100, 3600000⟩]

/-- The transaction of `c9Txs` whose entry the claim forbids. -/
def c9T0 : Tx := ⟨"T0", "A", "X", 100, 0⟩

/-! ## Helper lemmas -/

theorem lookup_setEvidence (key : String) (value : AccountEvidence)
    (l : List (String × AccountEvidence)) :
    (setEvidence key value l).lookup key = some value := by
  induction l with
  | nil => simp [setEvidence, List.lookup]
  | cons p rest ih =>
    obtain ⟨k, v⟩ := p
    by_cases h : k = key
    · simp [setEvidence, h, List.lookup]
    · have hb : (k == key) = false := by simp [h]
      have hb' : (key == k) = false := by simp [Ne.symm h]
      simp [setEvidence, hb, List.lookup, hb', ih]

theorem getRiskLevel_inBand (score : Nat) (h : score ≤ 100) :
    InBand score (getRiskLevel score) := by
  unfold InBand getRiskLevel
  split_ifs with h1 h2 h3 <;> simp <;> omega

theorem evaluateAccount_score_le (now : Int) (txs : List Tx)
    (ae : List (String × AccountEvidence)) (a : String) :
    (evaluateAccount now txs ae a).score ≤ 100 :=
  Nat.min_le_right _ _

/-! ## C3: risk level matches the score band, returned and persisted -/

/-- C3: for every account, after `evaluateAccount` the evidence record —
both the returned evaluation and the record persisted by
`updateAccountEvidence` — satisfies `risk_level = band(score)` with the exact
bands Normal [0,30), Suspicious [30,60), HighRisk [60,80),
ProbableML [80,100]. -/
theorem evaluateAccount_riskLevel (now : Int) (txs : List Tx)
    (ae : List (String × AccountEvidence)) (a : String) :
    (evaluateAccount now txs ae a).riskLevel =
      getRiskLevel (evaluateAccount now txs ae a).score := by
  simp only [evaluateAccount]

theorem evaluateAccount_accountId (now : Int) (txs : List Tx)
    (ae : List (String × AccountEvidence)) (a : String) :
    (evaluateAccount now txs ae a).accountId = a := by
  simp only [evaluateAccount]

theorem evidenceRecord_score (ev : Evaluation) :
    (evidenceRecord ev).score = ev.score := rfl

theorem evidenceRecord_riskLevel (ev : Evaluation) :
    (evidenceRecord ev).riskLevel = ev.riskLevel := rfl

theorem amlC3_risk_band (now : Int) (txs : List Tx)
    (ae : List (String × AccountEvidence)) (a : String) (sys : Sys) :
    InBand (evaluateAccount now txs ae a).score
      (evaluateAccount now txs ae a).riskLevel ∧
    (updateAccountEvidence (evaluateAccount now txs ae a) sys).store.accountEvidence.lookup a
      = some (evidenceRecord (evaluateAccount now txs ae a)) ∧
    InBand (evidenceRecord (evaluateAccount now txs ae a)).score
      (evidenceRecord (evaluateAccount now txs ae a)).riskLevel := by
  have hb : InBand (evaluateAccount now txs ae a).score
      (evaluateAccount now txs ae a).riskLevel := by
    rw [evaluateAccount_riskLevel]
    exact getRiskLevel_inBand _ (evaluateAccount_score_le now txs ae a)
  refine ⟨hb, ?_, ?_⟩
  · simp only [updateAccountEvidence, evaluateAccount_accountId]
    exact lookup_setEvidence a _ sys.store.accountEvidence
  · rw [evidenceRecord_score, evidenceRecord_riskLevel]
    exact hb

/-! ## C4: alert gating and severity mapping -/

/-- C4: `generateAlert` returns null exactly when the evaluation's score is
below 30, and every alert it returns carries score ≥ 30 and the fixed
severity mapping of its risk level (Normal→low, Suspicious→medium,
HighRisk→high, ProbableML→critical). -/
theorem amlC4_alert_gating (now : Int) (ev : Evaluation) :
    (generateAlert now ev = none ↔ ev.score < 30) ∧
    ∀ A : Alert, generateAlert now ev = some A →
      30 ≤ A.score ∧
      A.severity = (match A.riskLevel with
        | .normal => Severity.low
        | .suspicious => Severity.medium
        | .highRisk => Severity.high
        | .probableML => Severity.critical) := by
  unfold generateAlert
  by_cases h : ev.score < 30
  · simp [h]
  · simp only [if_neg h]
    refine ⟨by simp [h], ?_⟩
    intro A hA
    cases hA
    refine ⟨?_, ?_⟩
    · have : (mkAlert now ev).score = ev.score := rfl
      omega
    · have hsev : (mkAlert now ev).severity = mapRiskToSeverity ev.riskLevel := rfl
      have hrl : (mkAlert now ev).riskLevel = ev.riskLevel := rfl
      rw [hsev, hrl]
      cases ev.riskLevel <;> rfl

theorem amlC4_alert_gating_witness :
    30 ≤ (mkAlert 0 evAt45).score ∧
    (mkAlert 0 evAt45).severity = (match (mkAlert 0 evAt45).riskLevel with
      | .normal => Severity.low
      | .suspicious => Severity.medium
      | .highRisk => Severity.high
      | .probableML => Severity.critical) :=
  (amlC4_alert_gating 0 evAt45).2 (mkAlert 0 evAt45) (by decide)

/-! ## C6: the score formula -/

/-- C6: `evaluateAccount` produces
`score = clamp(10·|suspicious_txs| + 20·|patterns| + 30·|net.signals| +
(20 if probable_ml), 0, 100)`; over ℕ the lower clamp is vacuous, so this is
the `min` with 100, and the score never exceeds 100. -/
theorem amlC6_score_formula (now : Int) (txs : List Tx)
    (ae : List (String × AccountEvidence)) (a : String) :
    (evaluateAccount now txs ae a).score =
      min (10 * (evaluateAccount now txs ae a).details.suspiciousTxs.length +
           20 * (evaluateAccount now txs ae a).details.patterns.length +
           30 * (evaluateAccount now txs ae a).details.networkSignals.length +
           (if (evaluateAccount now txs ae a).evidence.isProbableML then 20 else 0)) 100 ∧
    (evaluateAccount now txs ae a).score ≤ 100 := by
  refine ⟨?_, evaluateAccount_score_le now txs ae a⟩
  simp only [evaluateAccount, calculateScore, analyzeAccount]
  omega

/-! ## C7: account age for future-dated first transactions -/

/-- C7 (failing input): a single transaction whose timestamp lies two days in
the future of the clock. `calculateBaseline` returns `accountAge = -2`: the
source computes `Math.floor((now − ts)/86400000) || 1`, and `|| 1` only
catches `0`, not negative ages, contradicting the claimed (and
source-commented) floor at 1 day. -/
theorem amlC7_future_age_bug :
    (calculateBaseline 1700000000000 "A"
      [⟨"T1", "A", "B", 100, 1700000000000 + 2 * 86400000⟩]).accountAge = -2 ∧
    ¬ (1 ≤ (calculateBaseline 1700000000000 "A"
      [⟨"T1", "A", "B", 100, 1700000000000 + 2 * 86400000⟩]).accountAge) := by
  constructor <;> decide

/-! ## C8: checkDeviation keys on sender truthiness, not sender = account -/

/-- C8 (counterexample): against account A's baseline (positive average
daily outflow), a transaction sent by the different non-empty account B
does produce an `amount_deviation` entry — `checkDeviation` never compares
the sender with the baseline's account, only `if (transaction.sender)`. -/
theorem amlC8_counterexample :
    c8ForeignTx.sender ≠ "A" ∧ c8ForeignTx.sender ≠ "" ∧
    c8Baseline.accountId = "A" ∧ 0 < c8Baseline.avgDailyOutflow ∧
    (⟨.amount_deviation, .high⟩ : Deviation) ∈
      (checkDeviation c8ForeignTx c8Baseline).deviations := by
  refine ⟨by decide, by decide, by decide, by decide, by decide⟩

/-- C8 (amended): `checkDeviation` reports an `amount_deviation` exactly when
the transaction's sender is non-empty (JS truthiness — regardless of whether
it equals the baseline's account), the baseline's average daily outflow is
positive, and the amount ratio exceeds 3 (severity high above 5, medium
otherwise); `first_transaction` fires exactly when the sender is non-empty,
the average daily outflow is not positive, and the amount is positive. The
restriction to `sender = account` is enforced only by the caller
(`findSuspiciousTransactions`). -/
theorem amlC8_deviation_characterization (tx : Tx) (b : Baseline) :
    ((⟨.amount_deviation, .high⟩ : Deviation) ∈ (checkDeviation tx b).deviations ↔
      tx.sender ≠ "" ∧ 0 < b.avgDailyOutflow ∧ 5 < tx.amount / b.avgDailyOutflow) ∧
    ((⟨.amount_deviation, .medium⟩ : Deviation) ∈ (checkDeviation tx b).deviations ↔
      tx.sender ≠ "" ∧ 0 < b.avgDailyOutflow ∧ 3 < tx.amount / b.avgDailyOutflow ∧
        ¬(5 < tx.amount / b.avgDailyOutflow)) ∧
    ((⟨.first_transaction, .medium⟩ : Deviation) ∈ (checkDeviation tx b).deviations ↔
      tx.sender ≠ "" ∧ ¬(0 < b.avgDailyOutflow) ∧ 0 < tx.amount) := by
  unfold checkDeviation
  by_cases hs : tx.sender = "" <;>
    by_cases ho : 0 < b.avgDailyOutflow <;>
    by_cases h3 : 3 < tx.amount / b.avgDailyOutflow <;>
    by_cases h5 : 5 < tx.amount / b.avgDailyOutflow <;>
    by_cases ha : 0 < tx.amount <;>
    by_cases hr : 0 < b.typicalAmountRange.2 ∧
      b.typicalAmountRange.2 * (3 / 2) < tx.amount <;>
    simp [hs, ho, h3, h5, ha, hr] <;>
    linarith

/-! ## C9: the similar-value window -/

theorem mem_condSingleton {α : Type} (p : Prop) [Decidable p] (y e : α) :
    e ∈ (if p then [y] else []) ↔ p ∧ e = y := by
  split <;> simp_all

/-- Membership of a `similar_value_repeat` entry among the entries pushed for
one transaction: it is present exactly when the (lower-bounded-only) window
count reaches 3, and then it is the canonical entry for that transaction. -/
theorem mem_suspEntriesFor_similar (accountId : String) (baseline : Baseline)
    (accountTxs : List Tx) (cT uT : Nat) (x : Tx) (e : SuspEntry) :
    (e ∈ suspEntriesFor accountId baseline accountTxs cT uT x ∧
      e.stype = .similar_value_repeat) ↔
    (e = ⟨x.id, .similar_value_repeat, [], x⟩ ∧
     3 ≤ (accountTxs.filter (fun o =>
        decide (x.timestamp - msPerDay ≤ o.timestamp) &&
        divLtJs |o.amount - x.amount| x.amount (1 / 20))).length) := by
  constructor
  · rintro ⟨hmem, hst⟩
    simp only [suspEntriesFor, List.mem_append, mem_condSingleton] at hmem
    rcases hmem with (((⟨hc, he⟩ | ⟨hc, he⟩) | ⟨hc, he⟩) | ⟨hc, he⟩) | ⟨hc, he⟩ <;>
      subst he
    · simp at hst
    · simp at hst
    · simp at hst
    · exact ⟨rfl, hc⟩
    · simp at hst
  · rintro ⟨he, hc⟩
    subst he
    refine ⟨?_, rfl⟩
    unfold suspEntriesFor
    apply List.mem_append_left
    apply List.mem_append_right
    rw [if_pos hc]
    exact List.mem_singleton_self _

/-- C9 (counterexample): in `c9Txs`, the entry for `T0` is emitted although
only `T0` itself lies in the 24 hours before (and not after) `T0.timestamp`:
the source window `o.ts ≥ tx.ts − 24h` has no upper bound, so the two
transactions one hour *after* `T0` are counted. -/
theorem amlC9_counterexample :
    (∃ e ∈ findSuspiciousTransactions nowRef "A" c9Txs
        (calculateBaseline nowRef "A" c9Txs),
      e.stype = .similar_value_repeat ∧ e.transaction = c9T0) ∧
    specSimilarWindowCount "A" c9Txs c9T0 = 1 := by
  refine ⟨⟨⟨"T0", .similar_value_repeat, [], c9T0⟩, by decide, by decide, by decide⟩,
    by decide⟩

/-- C9 (amended): `findSuspiciousTransactions` emits a `similar_value_repeat`
entry for `tx` exactly when at least 3 transactions touching the account have
timestamp ≥ `tx.timestamp − 24h` — with no upper bound, so transactions after
`tx.timestamp` also count — and relative amount difference below 5% of
`tx.amount`. -/
theorem amlC9_similar_window (now : Int) (accountId : String) (txs : List Tx)
    (baseline : Baseline) (tx : Tx) :
    (∃ e ∈ findSuspiciousTransactions now accountId txs baseline,
        e.stype = .similar_value_repeat ∧ e.transaction = tx) ↔
    (touches accountId tx = true ∧ tx ∈ txs ∧
     3 ≤ ((txs.filter (touches accountId)).filter (fun o =>
        decide (tx.timestamp - msPerDay ≤ o.timestamp) &&
        divLtJs |o.amount - tx.amount| tx.amount (1 / 20))).length) := by
  unfold findSuspiciousTransactions
  constructor
  · rintro ⟨e, he, hst, htx⟩
    rw [List.mem_flatMap] at he
    obtain ⟨x, hx, hex⟩ := he
    obtain ⟨he', hcount⟩ := (mem_suspEntriesFor_similar _ _ _ _ _ x e).mp ⟨hex, hst⟩
    have hxtx : x = tx := by rw [he'] at htx; exact htx
    subst hxtx
    rw [List.mem_filter] at hx
    exact ⟨hx.2, hx.1, hcount⟩
  · rintro ⟨ht, hmem, hcount⟩
    refine ⟨⟨tx.id, .similar_value_repeat, [], tx⟩, ?_, rfl, rfl⟩
    rw [List.mem_flatMap]
    refine ⟨tx, List.mem_filter.mpr ⟨hmem, ht⟩, ?_⟩
    exact ((mem_suspEntriesFor_similar _ _ _ _ _ tx _).mpr ⟨rfl, hcount⟩).1

/-! ## C2: Pipeline.process performs no entry validation -/

theorem updateAccountEvidence_transactions (ev : Evaluation) (sys : Sys) :
    (updateAccountEvidence ev sys).store.transactions = sys.store.transactions := rfl

theorem logAudit_transactions (now : Int) (u b d : String) (sys : Sys) :
    (logAudit now u b d sys).store.transactions = sys.store.transactions := rfl

theorem createAndSaveAlert_transactions (now : Int) (a : String) (sys : Sys) :
    (createAndSaveAlert now a sys).2.store.transactions = sys.store.transactions := by
  unfold createAndSaveAlert
  rcases h : generateAlert now
      (evaluateAccount now sys.store.transactions sys.store.accountEvidence a) with
    _ | alert
  · simp [h]
  · simp only [h]
    split <;> rfl

theorem processAccountStep_transactions (now : Int) (a : String) (sys : Sys) :
    (processAccountStep now a sys).store.transactions = sys.store.transactions := by
  simp only [processAccountStep]
  split
  · rw [createAndSaveAlert_transactions]; rfl
  · rfl

theorem foldl_processAccountStep_transactions (now : Int) (accs : List String) :
    ∀ sys : Sys,
      ((accs.foldl (fun acc accountId => processAccountStep now accountId acc) sys)
        |>.store.transactions) = sys.store.transactions := by
  induction accs with
  | nil => intro sys; rfl
  | cons a rest ih =>
    intro sys
    rw [List.foldl_cons, ih, processAccountStep_transactions]

/-- C2 (counterexample): a transaction with negative amount and
sender = receiver is not rejected: `processTransaction` writes it into the
Store (prepended to the transactions list; the Store visibly changes). -/
theorem amlC2_counterexample :
    invalidTx.amount ≤ 0 ∧ invalidTx.sender = invalidTx.receiver ∧
    (processTransaction nowRef invalidTx ⟨emptyStore, [0, 0]⟩).store.transactions
      = [invalidTx] ∧
    (processTransaction nowRef invalidTx ⟨emptyStore, [0, 0]⟩).store ≠ emptyStore := by
  refine ⟨by decide, by decide, by decide, by decide⟩

/-- C2 (amended): `processTransaction` performs no entry validation at all —
every transaction, including those with amount ≤ 0 or sender = receiver, is
prepended to the Store's transactions list (and the evidence/audit writes
then proceed as for any transaction). -/
theorem amlC2_no_validation (now : Int) (transaction : Tx) (sys : Sys) :
    (processTransaction now transaction sys).store.transactions =
      transaction :: sys.store.transactions := by
  unfold processTransaction
  rw [foldl_processAccountStep_transactions]
  rfl

/-! ## C10: createAndSaveAlert's return value on suppressed duplicates -/

theorem generateAlert_of_ge (now : Int) (ev : Evaluation) (h : 30 ≤ ev.score) :
    generateAlert now ev = some (mkAlert now ev) := by
  unfold generateAlert
  rw [if_neg (by omega)]

theorem csa_return (now : Int) (a : String) (sys : Sys)
    (h1 : 30 ≤ (evaluateAccount now sys.store.transactions sys.store.accountEvidence a).score) :
    (createAndSaveAlert now a sys).1 =
      some (mkAlert now
        (evaluateAccount now sys.store.transactions sys.store.accountEvidence a)) := by
  simp only [createAndSaveAlert]
  rw [generateAlert_of_ge _ _ h1]
  dsimp only
  split <;> rfl

theorem csa_suppressed_sys (now : Int) (a : String) (sys : Sys)
    (h1 : 30 ≤ (evaluateAccount now sys.store.transactions sys.store.accountEvidence a).score)
    (h2 : (sys.store.alerts.find? (isRecentAlertFor now a)).isSome = true) :
    (createAndSaveAlert now a sys).2 = sys := by
  simp only [createAndSaveAlert]
  rw [generateAlert_of_ge _ _ h1]
  dsimp only
  rw [if_pos h2]

/-- C10: when the account's evaluation scores ≥ 30 and an alert for it newer
than one hour already exists, `createAndSaveAlert` still returns the freshly
generated alert object while leaving the Store (and the randomness stream)
untouched — the return value alone cannot distinguish a persisted alert from
a suppressed duplicate. -/
theorem amlC10_return_on_duplicate (now : Int) (sys : Sys) (a : String)
    (h1 : 30 ≤ (evaluateAccount now sys.store.transactions sys.store.accountEvidence a).score) :
    (createAndSaveAlert now a sys).1 =
      some (mkAlert now
        (evaluateAccount now sys.store.transactions sys.store.accountEvidence a)) ∧
    ((sys.store.alerts.find? (isRecentAlertFor now a)).isSome = true →
      (createAndSaveAlert now a sys).2 = sys) :=
  ⟨csa_return now a sys h1, fun h2 => csa_suppressed_sys now a sys h1 h2⟩

theorem amlC10_return_on_duplicate_witness :
    (createAndSaveAlert nowRef "A" ⟨dupSt, []⟩).1 =
      some (mkAlert nowRef
        (evaluateAccount nowRef dupSt.transactions dupSt.accountEvidence "A")) ∧
    (createAndSaveAlert nowRef "A" ⟨dupSt, []⟩).2 = ⟨dupSt, []⟩ := by
  have h := amlC10_return_on_duplicate nowRef ⟨dupSt, []⟩ "A" (by decide)
  exact ⟨h.1, h.2 (by decide)⟩

/-! ## C5: the one-hour alert dedup window -/

theorem createAndSaveAlert_accountEvidence (now : Int) (a : String) (sys : Sys) :
    (createAndSaveAlert now a sys).2.store.accountEvidence =
      sys.store.accountEvidence := by
  unfold createAndSaveAlert
  rcases h : generateAlert now
      (evaluateAccount now sys.store.transactions sys.store.accountEvidence a) with
    _ | alert
  · simp [h]
  · simp only [h]
    split <;> rfl

theorem mkAlert_accountId (now : Int) (ev : Evaluation) :
    (mkAlert now ev).accountId = ev.accountId := rfl

theorem mkAlert_timestamp (now : Int) (ev : Evaluation) :
    (mkAlert now ev).timestamp = now := rfl

theorem csa_appended (now : Int) (a : String) (sys : Sys)
    (h1 : 30 ≤ (evaluateAccount now sys.store.transactions sys.store.accountEvidence a).score)
    (h2 : sys.store.alerts.find? (isRecentAlertFor now a) = none) :
    (createAndSaveAlert now a sys).2.store.alerts =
      sys.store.alerts ++
        [mkAlert now
          (evaluateAccount now sys.store.transactions sys.store.accountEvidence a)] := by
  simp only [createAndSaveAlert]
  rw [generateAlert_of_ge _ _ h1]
  dsimp only
  rw [if_neg (by simp [h2])]
  rfl

theorem csa_alerts_cases (now : Int) (a : String) (sys : Sys) :
    (createAndSaveAlert now a sys).2.store.alerts = sys.store.alerts ∨
    (sys.store.alerts.find? (isRecentAlertFor now a) = none ∧
     (createAndSaveAlert now a sys).2.store.alerts =
       sys.store.alerts ++
         [mkAlert now
           (evaluateAccount now sys.store.transactions sys.store.accountEvidence a)]) := by
  by_cases hsc :
      30 ≤ (evaluateAccount now sys.store.transactions sys.store.accountEvidence a).score
  · by_cases hf : (sys.store.alerts.find? (isRecentAlertFor now a)).isSome = true
    · left
      rw [csa_suppressed_sys now a sys hsc hf]
    · have h2 : sys.store.alerts.find? (isRecentAlertFor now a) = none := by
        rcases ho : sys.store.alerts.find? (isRecentAlertFor now a) with _ | v
        · rfl
        · exact absurd (by rw [ho]; rfl) hf
      exact Or.inr ⟨h2, csa_appended now a sys hsc h2⟩
  · left
    simp only [createAndSaveAlert, generateAlert]
    rw [if_pos (by omega)]

theorem invAlerts_csa (now : Int) (a : String) (sys : Sys)
    (h : InvAlerts now sys.store.alerts) :
    InvAlerts now (createAndSaveAlert now a sys).2.store.alerts := by
  rcases csa_alerts_cases now a sys with heq | ⟨hnone, heq⟩
  · rw [heq]; exact h
  · rw [heq]
    intro acc
    rw [List.filter_append]
    by_cases hacc : acc = a
    · subst hacc
      have hnil : sys.store.alerts.filter (isRecentAlertFor now acc) = [] := by
        rw [List.filter_eq_nil_iff]
        intro x hx
        exact List.find?_eq_none.mp hnone x hx
      rw [hnil]
      simp only [List.nil_append]
      exact List.length_filter_le _ _
    · have hskip : isRecentAlertFor now acc
          (mkAlert now
            (evaluateAccount now sys.store.transactions sys.store.accountEvidence a))
          = false := by
        unfold isRecentAlertFor
        rw [mkAlert_accountId, evaluateAccount_accountId]
        simp [Ne.symm hacc]
      have : (List.filter (isRecentAlertFor now acc)
          [mkAlert now
            (evaluateAccount now sys.store.transactions sys.store.accountEvidence a)]) = [] := by
        simp [hskip]
      rw [this, List.append_nil]
      exact h acc

theorem updateAccountEvidence_alerts (ev : Evaluation) (sys : Sys) :
    (updateAccountEvidence ev sys).store.alerts = sys.store.alerts := rfl

theorem logAudit_alerts (now : Int) (u b d : String) (sys : Sys) :
    (logAudit now u b d sys).store.alerts = sys.store.alerts := rfl

theorem invAlerts_processAccountStep (now : Int) (a : String) (sys : Sys)
    (h : InvAlerts now sys.store.alerts) :
    InvAlerts now (processAccountStep now a sys).store.alerts := by
  simp only [processAccountStep]
  split
  · exact invAlerts_csa now a _ h
  · exact h

theorem invAlerts_foldl_steps (now : Int) (accs : List String) :
    ∀ sys : Sys, InvAlerts now sys.store.alerts →
      InvAlerts now
        ((accs.foldl (fun acc accountId => processAccountStep now accountId acc) sys)
          |>.store.alerts) := by
  induction accs with
  | nil => intro sys h; exact h
  | cons a rest ih =>
    intro sys h
    rw [List.foldl_cons]
    exact ih _ (invAlerts_processAccountStep now a sys h)

theorem addTransaction_alerts (now : Int) (t : Tx) (sys : Sys) :
    (addTransaction now t sys).store.alerts = sys.store.alerts := rfl

theorem invAlerts_processTransaction (now : Int) (t : Tx) (sys : Sys)
    (h : InvAlerts now sys.store.alerts) :
    InvAlerts now (processTransaction now t sys).store.alerts := by
  unfold processTransaction
  apply invAlerts_foldl_steps
  rw [addTransaction_alerts]
  exact h

theorem evaluateAllAccounts_foldl_alerts (now : Int) (accs : List String) :
    ∀ p : List Evaluation × Sys,
      ((accs.foldl (fun acc accountId =>
          let ev := evaluateAccount now acc.2.store.transactions
            acc.2.store.accountEvidence accountId
          (acc.1 ++ [ev], updateAccountEvidence ev acc.2)) p).2.store.alerts)
        = p.2.store.alerts := by
  induction accs with
  | nil => intro p; rfl
  | cons a rest ih =>
    intro p
    rw [List.foldl_cons, ih]
    rfl

theorem invAlerts_alertLoop (now : Int) (evs : List Evaluation) :
    ∀ sys : Sys, InvAlerts now sys.store.alerts →
      InvAlerts now
        ((evs.foldl (fun acc ev =>
            if 30 ≤ ev.score then (createAndSaveAlert now ev.accountId acc).2 else acc)
          sys).store.alerts) := by
  induction evs with
  | nil => intro sys h; exact h
  | cons ev rest ih =>
    intro sys h
    rw [List.foldl_cons]
    refine ih _ ?_
    split
    · exact invAlerts_csa now ev.accountId sys h
    · exact h

theorem invAlerts_runFullAnalysis (now : Int) (sys : Sys)
    (h : InvAlerts now sys.store.alerts) :
    InvAlerts now (runFullAnalysis now sys).store.alerts := by
  unfold runFullAnalysis evaluateAllAccounts
  apply invAlerts_alertLoop
  rw [evaluateAllAccounts_foldl_alerts]
  exact h

theorem isRecentAlertFor_mkAlert (now : Int) (txs : List Tx)
    (ae : List (String × AccountEvidence)) (a : String) :
    isRecentAlertFor now a (mkAlert now (evaluateAccount now txs ae a)) = true := by
  unfold isRecentAlertFor
  rw [mkAlert_accountId, evaluateAccount_accountId, mkAlert_timestamp]
  simp only [beq_self_eq_true, Bool.true_and, decide_eq_true_eq, msPerHour]
  omega

/-- C5 (counterexample): for an account with no transactions the evaluation
scores 0, so two immediately successive `createAndSaveAlert` calls append no
alert at all — not "exactly one" as the claim states. -/
theorem amlC5_counterexample :
    (createAndSaveAlert nowRef "A"
        (createAndSaveAlert nowRef "A" ⟨emptyStore, []⟩).2).2.store.alerts = [] ∧
    emptyStore.alerts = [] := by
  exact ⟨by decide, rfl⟩

/-- C5 (amended): in every Store state reachable from the seeded store
through the core entry points under a fixed clock, each account has at most
one alert with timestamp inside the one-hour window; and two immediately
successive `createAndSaveAlert` calls append exactly one alert provided the
account's evaluation scores ≥ 30 and no in-window alert for it already
exists (otherwise they append none). -/
theorem amlC5_dedup_window (now : Int) :
    (∀ s : St, Reach now s → InvAlerts now s.alerts) ∧
    (∀ (s : St) (r₁ : List Nat) (a : String),
      30 ≤ (evaluateAccount now s.transactions s.accountEvidence a).score →
      s.alerts.find? (isRecentAlertFor now a) = none →
      (createAndSaveAlert now a
          (createAndSaveAlert now a ⟨s, r₁⟩).2).2.store.alerts.length
        = s.alerts.length + 1) := by
  constructor
  · intro s hr
    induction hr with
    | init rands => intro a; simp [initStore, logAudit]
    | proc s t rands hr ih => exact invAlerts_processTransaction now t ⟨s, rands⟩ ih
    | save s a rands hr ih => exact invAlerts_csa now a ⟨s, rands⟩ ih
    | full s rands hr ih => exact invAlerts_runFullAnalysis now ⟨s, rands⟩ ih
  · intro s r₁ a h1 h2
    have happ := csa_appended now a ⟨s, r₁⟩ h1 h2
    have htr := createAndSaveAlert_transactions now a ⟨s, r₁⟩
    have hae := createAndSaveAlert_accountEvidence now a ⟨s, r₁⟩
    have hev2 : evaluateAccount now
        (createAndSaveAlert now a ⟨s, r₁⟩).2.store.transactions
        (createAndSaveAlert now a ⟨s, r₁⟩).2.store.accountEvidence a =
        evaluateAccount now s.transactions s.accountEvidence a := by
      rw [htr, hae]
    have hsc2 : 30 ≤ (evaluateAccount now
        (createAndSaveAlert now a ⟨s, r₁⟩).2.store.transactions
        (createAndSaveAlert now a ⟨s, r₁⟩).2.store.accountEvidence a).score := by
      rw [hev2]; exact h1
    have hfind : ((createAndSaveAlert now a ⟨s, r₁⟩).2.store.alerts.find?
        (isRecentAlertFor now a)).isSome = true := by
      rw [happ]
      rcases ho : (s.alerts ++
          [mkAlert now (evaluateAccount now s.transactions s.accountEvidence a)]).find?
          (isRecentAlertFor now a) with _ | v
      · exfalso
        have hmem : mkAlert now (evaluateAccount now s.transactions s.accountEvidence a) ∈
            s.alerts ++
              [mkAlert now (evaluateAccount now s.transactions s.accountEvidence a)] := by
          simp
        have := List.find?_eq_none.mp ho _ hmem
        exact this (isRecentAlertFor_mkAlert now s.transactions s.accountEvidence a)
      · rfl
    rw [csa_suppressed_sys now a _ hsc2 hfind, happ]
    simp

theorem amlC5_dedup_window_witness :
    (((initStore nowRef []).store.alerts.filter (isRecentAlertFor nowRef "A")).length ≤ 1) ∧
    ((createAndSaveAlert nowRef "A"
        (createAndSaveAlert nowRef "A" ⟨circSt, []⟩).2).2.store.alerts.length
      = circSt.alerts.length + 1) := by
  refine ⟨(amlC5_dedup_window nowRef).1 _ (Reach.init []) "A", ?_⟩
  exact (amlC5_dedup_window nowRef).2 circSt [] "A" (by decide) (by decide)

/-! ## C1: determinism up to the random audit-id halves -/

theorem stEquiv_logAudit (now : Int) (u b d : String) (x y : Sys)
    (h : StEquiv x.store y.store) :
    StEquiv (logAudit now u b d x).store (logAudit now u b d y).store := by
  obtain ⟨h1, h2, h3, h4⟩ := h
  refine ⟨h1, h2, h3, ?_⟩
  simp only [logAudit, List.map_cons, eraseLogId]
  rw [h4]

theorem stEquiv_addTransaction (now : Int) (t : Tx) (x y : Sys)
    (h : StEquiv x.store y.store) :
    StEquiv (addTransaction now t x).store (addTransaction now t y).store := by
  apply stEquiv_logAudit
  exact ⟨by simp only [Sys.mk.injEq]; rw [h.1], h.2.1, h.2.2.1, h.2.2.2⟩

theorem stEquiv_evaluate (now : Int) (a : String) {s₁ s₂ : St}
    (h : StEquiv s₁ s₂) :
    evaluateAccount now s₁.transactions s₁.accountEvidence a =
      evaluateAccount now s₂.transactions s₂.accountEvidence a := by
  rw [h.1, h.2.2.1]

theorem stEquiv_csa (now : Int) (a : String) (x y : Sys)
    (h : StEquiv x.store y.store) :
    (createAndSaveAlert now a x).1 = (createAndSaveAlert now a y).1 ∧
    StEquiv (createAndSaveAlert now a x).2.store
      (createAndSaveAlert now a y).2.store := by
  have hev := stEquiv_evaluate now a h
  simp only [createAndSaveAlert]
  rw [hev, h.2.1]
  rcases hg : generateAlert now
      (evaluateAccount now y.store.transactions y.store.accountEvidence a) with
    _ | alert
  · exact ⟨rfl, h⟩
  · dsimp only
    by_cases hf : (y.store.alerts.find? (isRecentAlertFor now a)).isSome = true
    · rw [if_pos hf, if_pos hf]
      exact ⟨rfl, h⟩
    · rw [if_neg hf, if_neg hf]
      refine ⟨rfl, ?_⟩
      apply stEquiv_logAudit
      exact ⟨h.1, rfl, h.2.2.1, h.2.2.2⟩

theorem stEquiv_updateEvidence (ev : Evaluation) (x y : Sys)
    (h : StEquiv x.store y.store) :
    StEquiv (updateAccountEvidence ev x).store (updateAccountEvidence ev y).store :=
  ⟨h.1, h.2.1, by simp only [updateAccountEvidence]; rw [h.2.2.1], h.2.2.2⟩

theorem stEquiv_processAccountStep (now : Int) (a : String) (x y : Sys)
    (h : StEquiv x.store y.store) :
    StEquiv (processAccountStep now a x).store (processAccountStep now a y).store := by
  have hev := stEquiv_evaluate now a h
  simp only [processAccountStep]
  rw [hev]
  by_cases hsc :
      30 ≤ (evaluateAccount now y.store.transactions y.store.accountEvidence a).score
  · rw [if_pos hsc, if_pos hsc]
    exact (stEquiv_csa now a _ _ (stEquiv_updateEvidence _ x y h)).2
  · rw [if_neg hsc, if_neg hsc]
    exact stEquiv_updateEvidence _ x y h

theorem stEquiv_foldl_steps (now : Int) (accs : List String) :
    ∀ x y : Sys, StEquiv x.store y.store →
      StEquiv
        ((accs.foldl (fun acc accountId => processAccountStep now accountId acc) x).store)
        ((accs.foldl (fun acc accountId => processAccountStep now accountId acc) y).store) := by
  induction accs with
  | nil => intro x y h; exact h
  | cons a rest ih =>
    intro x y h
    rw [List.foldl_cons, List.foldl_cons]
    exact ih _ _ (stEquiv_processAccountStep now a x y h)

theorem stEquiv_processTransaction (now : Int) (t : Tx) (x y : Sys)
    (h : StEquiv x.store y.store) :
    StEquiv (processTransaction now t x).store (processTransaction now t y).store := by
  simp only [processTransaction]
  exact stEquiv_foldl_steps now [t.sender, t.receiver] _ _
    (stEquiv_addTransaction now t x y h)

theorem stEquiv_processAll (now : Int) (txs : List Tx) :
    ∀ x y : Sys, StEquiv x.store y.store →
      StEquiv (processAll now txs x).store (processAll now txs y).store := by
  induction txs with
  | nil => intro x y h; exact h
  | cons t rest ih =>
    intro x y h
    unfold processAll
    rw [List.foldl_cons, List.foldl_cons]
    exact ih _ _ (stEquiv_processTransaction now t x y h)

/-- C1 (counterexample): two runs from the equal (empty) Store, ingesting the
same transaction under the same fixed clock but with different
`Math.random()` draws, end in different Store states: the audit-log ids have
a random half which the fixed clock does not determine. -/
theorem amlC1_counterexample :
    (processTransaction nowRef plainTx ⟨emptyStore, [1]⟩).store ≠
      (processTransaction nowRef plainTx ⟨emptyStore, [2]⟩).store := by decide

/-- C1 (amended): for every pair of runs from equal Store state ingesting
equal transaction sequences through the pipeline under a fixed clock, the
resulting Store states are bit-identical *except for the random halves of
the audit-log ids*: transactions, account evidence, alerts, and all audit
fields other than the random id half coincide. -/
theorem amlC1_determinism_modulo_audit_ids (now : Int) (s : St) (txs : List Tx)
    (r₁ r₂ : List Nat) :
    eraseAuditIds (processAll now txs ⟨s, r₁⟩).store =
      eraseAuditIds (processAll now txs ⟨s, r₂⟩).store := by
  obtain ⟨h1, h2, h3, h4⟩ :=
    stEquiv_processAll now txs ⟨s, r₁⟩ ⟨s, r₂⟩ ⟨rfl, rfl, rfl, rfl⟩
  simp only [eraseAuditIds]
  rw [h1, h2, h3, h4]

theorem amlC8_deviation_characterization_witness :
    (⟨.amount_deviation, .high⟩ : Deviation) ∈
      (checkDeviation c8ForeignTx c8Baseline).deviations :=
  (amlC8_deviation_characterization c8ForeignTx c8Baseline).1.mpr
    ⟨by decide, by decide, by decide⟩

theorem amlC9_similar_window_witness :
    ∃ e ∈ findSuspiciousTransactions nowRef "A" c9Txs
        (calculateBaseline nowRef "A" c9Txs),
      e.stype = .similar_value_repeat ∧ e.transaction = c9T0 :=
  (amlC9_similar_window nowRef "A" c9Txs (calculateBaseline nowRef "A" c9Txs)
    c9T0).mpr ⟨by decide, by decide, by decide⟩
